import Mathlib

set_option maxRecDepth 4000

/-!
Verification of the TaskTracker probe service (`src/function_app.py`).

The file shallowly embeds the Python module: pydantic request/response
validation, the probe-catalog resolver (`_get_available_layers`,
`_discover_probes`), and the `/v1/predict` handler, and proves the frozen
claims about them.

Modelling conventions, each justified against the source:

* Python `float` values are modelled as exact rationals (`ℚ`): no claim in
  scope depends on rounding, only on data flow (which array cell is
  returned, range checks, determinism).
* A pickled probe artifact is opaque in the source; it is modelled as a
  record of optional functions, one per duck-typed capability
  (`predict_proba`, `predict`), exactly the two capabilities the handler
  probes with `hasattr`.
* The filesystem seen by `predict` is a partial map from resolved
  (normalised) absolute paths, given as component lists, to the artifact
  stored in the `model.pickle` file at that path; `exists()` and
  `pickle.load` both go through this map, so a race between the existence
  check and the open (the only way the source's `FileNotFoundError` branch
  could fire) is not modelled.
* The catalog resolver walks directory listings; these are modelled as
  explicit lists of entries carrying the facts the source queries:
  `is_dir()`, the entry name, and the presence of `config.json` and
  `model.pickle`.
* `pydantic.BaseModel.model_validate_json` (pydantic v2, required by the
  source's use of `field_validator`) is modelled per its documented
  semantics: a body that is not JSON raises a `ValidationError` carrying a
  single error with type `json_invalid` and EMPTY location tuple; a parsed
  body is checked field by field in declaration order, collecting one error
  per violated constraint, with the field's name as the location.  Missing
  fields and ill-typed fields are outside the claims' scope, so a parsed
  body is modelled as already carrying the five typed fields.
* An exception raised inside an `except` block of the handler (notably the
  `IndexError` from `err["loc"][-1]` on an empty location tuple) escapes
  the handler: the embedded handler returns `Except.error` for "no HTTP
  response was produced, an exception propagated to the host".
-/

namespace TaskTracker

/-! ### Python string primitives used by the catalog resolver -/

/-- ASCII decimal digit test; models Python `str.isdigit` on the ASCII
directory names in scope. -/
def isDigitChar (c : Char) : Bool := 48 ≤ c.toNat && c.toNat ≤ 57

/-- Python `name.isdigit()`: nonempty and all characters digits. -/
def pyIsDigit (s : String) : Bool := !s.data.isEmpty && s.data.all isDigitChar

/-- Numeric value of a digit character. -/
def digitVal (c : Char) : Nat := c.toNat - 48

/-- One step of decimal accumulation. -/
def digitStep (a : Nat) (c : Char) : Nat := a * 10 + digitVal c

/-- Python `int(name)` on a digit string: decimal value. -/
def pyIntOfDigits (s : String) : Nat := s.data.foldl digitStep 0

/-- Lexicographic order on character lists by code point; models how Python
compares the `Path` objects produced by `iterdir()` (string comparison of
the final component, the rest of the path being shared). -/
def charListLe : List Char → List Char → Bool
  | [], _ => true
  | _ :: _, [] => false
  | a :: as, b :: bs =>
    if a.toNat < b.toNat then true
    else if b.toNat < a.toNat then false
    else charListLe as bs

/-- `a <= b` for directory-entry names, as Python's `sorted` sees them. -/
def nameLe (a b : String) : Bool := charListLe a.data b.data

/-! ### The probe artifact and the directory tree -/

/-- A deserialised probe artifact, keyed by the two capabilities the handler
probes with `hasattr`.  `predict_proba` returns a 2-D array (rows ×
classes); `predict` returns a 1-D array. -/
structure ProbeModel where
  predict_proba : Option (List (List ℚ) → List (List ℚ))
  predict : Option (List (List ℚ) → List ℚ)

/-- One entry of a model directory's listing, with the facts
`_get_available_layers` queries about it. -/
structure LayerDir where
  name : String
  is_dir : Bool
  has_config : Bool
  artifact : Option ProbeModel

/-- `layer_dir.is_dir() and layer_dir.name.isdigit()` together with both
required files existing: the whole qualification test of
`_get_available_layers`. -/
def qualifies (d : LayerDir) : Bool :=
  d.is_dir && pyIsDigit d.name && d.has_config && d.artifact.isSome

/-- Name order on layer-directory entries, the order `sorted()` uses. -/
def layerLe (a b : LayerDir) : Prop := nameLe a.name b.name = true

instance : DecidableRel layerLe :=
  fun a b => inferInstanceAs (Decidable (nameLe a.name b.name = true))

/-- `_get_available_layers`: iterate the listing in sorted (lexicographic
Path) order, keep qualifying entries, append `int(name)`. -/
def get_available_layers (entries : List LayerDir) : List Int :=
  ((List.insertionSort layerLe entries).filter qualifies).map
    (fun d => (pyIntOfDigits d.name : Int))

/-- Information about an available probe (source class `ProbeInfo`). -/
structure ProbeInfo where
  model : String
  probe_type : String
  layers : List Int
deriving DecidableEq

/-- One entry of the probes-root listing, as `_discover_probes` sees it. -/
structure ModelDir where
  name : String
  is_dir : Bool
  entries : List LayerDir

/-- `_discover_probes`: `none` is a missing probes root (`exists()` false);
skip non-directories; keep model directories with a nonempty layer list. -/
def discover_probes : Option (List ModelDir) → List ProbeInfo
  | none => []
  | some dirs =>
    (dirs.filter (fun md => md.is_dir)).filterMap (fun md =>
      let layers := get_available_layers md.entries
      if layers.isEmpty then none
      else some ⟨md.name, "linear_probe", layers⟩)

/-! ### Pydantic validation -/

/-- One entry of `ValidationError.errors()`: the location tuple and the
message.  For a body that is not JSON the location is empty. -/
structure PydanticError where
  loc : List String
  msg : String
deriving DecidableEq

/-- pydantic v2 message for a violated `ge=0` bound. -/
def geZeroMsg : String := "Input should be greater than or equal to 0"

/-- pydantic v2 message for a violated `le=1.0` bound. -/
def leOneMsg : String := "Input should be less than or equal to 1"

/-- pydantic v2 message for the custom length validator's `ValueError`. -/
def lenMsg : String := "Value error, Activations must have exactly 4096 dimensions"

/-- pydantic v2 message prefix for a body that is not JSON. -/
def invalidJsonMsg : String := "Invalid JSON: expected value"

/-- Message of the Python `IndexError` raised by `()[-1]`. -/
def indexErrorMsg : String := "tuple index out of range"

/-- The validated request object (source class `PredictRequest`). -/
structure PredictRequest where
  model : String
  probe_type : String
  layer : Int
  primary_activations : List ℚ
  text_activations : List ℚ

/-- The typed fields of a request body that parsed as JSON, before
constraint checks; `probe_type` is `none` when absent (pydantic then
applies the default). -/
structure RequestFields where
  model : String
  probe_type : Option String
  layer : Int
  primary_activations : List ℚ
  text_activations : List ℚ

/-- A request body: either not parseable as JSON at all, or a parsed
object carrying the typed fields. -/
inductive Body
  | malformed
  | obj (fields : RequestFields)

/-- Constraint errors for a parsed body, in field declaration order
(`layer`'s `ge=0`, then each activation array's length validator). -/
def requestErrors (f : RequestFields) : List PydanticError :=
  (if f.layer < 0 then [⟨["layer"], geZeroMsg⟩] else [])
    ++ (if f.primary_activations.length ≠ 4096 then
          [⟨["primary_activations"], lenMsg⟩] else [])
    ++ (if f.text_activations.length ≠ 4096 then
          [⟨["text_activations"], lenMsg⟩] else [])

/-- `PredictRequest.model_validate_json`: a non-JSON body raises a
`ValidationError` whose single error has an empty location; a parsed body
either validates (with `probe_type` defaulted) or raises with one error per
violated constraint. -/
def model_validate_json : Body → Except (List PydanticError) PredictRequest
  | .malformed => .error [⟨[], invalidJsonMsg⟩]
  | .obj f =>
    match requestErrors f with
    | [] => .ok ⟨f.model, f.probe_type.getD "linear_probe", f.layer,
                 f.primary_activations, f.text_activations⟩
    | e :: es => .error (e :: es)

/-- Constraint errors of `PredictResponse`: `predicted_probability` carries
`ge=0.0, le=1.0`; the echoed fields are unconstrained. -/
def responseErrors (p : ℚ) : List PydanticError :=
  (if p < 0 then [⟨["predicted_probability"], geZeroMsg⟩] else [])
    ++ (if 1 < p then [⟨["predicted_probability"], leOneMsg⟩] else [])

/-! ### HTTP responses -/

/-- One `{field, message}` entry of the validation-failure details list. -/
structure HttpDetail where
  field : String
  message : String
deriving DecidableEq

/-- Structured view of the JSON bodies the handlers emit.
`validationFailed ds` stands for the body
`[error: Validation failed, details: ds]`; `errorBody m` for `[error: m]`;
`predictOk` for a serialised `PredictResponse`; `probeList` for a
serialised `ProbesResponse`. -/
inductive RespBody
  | errorBody (msg : String)
  | validationFailed (details : List HttpDetail)
  | predictOk (model : String) (probe_type : String) (layer : Int)
      (predicted_probability : ℚ)
  | probeList (probes : List ProbeInfo)
deriving DecidableEq

/-- An HTTP response as built by `func.HttpResponse`. -/
structure HttpResponse where
  status_code : Nat
  body : RespBody
deriving DecidableEq

/-- The message of the 404 branch of `predict`, built exactly as the
source's f-string pair. -/
def notFoundMsg (model : String) (layer : Int) : String :=
  "Probe not found for model \x27" ++ model ++ "\x27 at layer "
    ++ toString layer

/-! ### Path arithmetic (`pathlib` joining, OS-level resolution) -/

/-- Character-level splitter behind `splitSegments`: `seg` accumulates the
current segment's characters in reverse; empty segments are dropped. -/
def splitSegsAux : List Char → List Char → List String
  | [], seg => if seg.isEmpty then [] else [String.mk seg.reverse]
  | c :: rest, seg =>
    if c = '/' then
      if seg.isEmpty then splitSegsAux rest []
      else String.mk seg.reverse :: splitSegsAux rest []
    else splitSegsAux rest (c :: seg)

/-- Split a string on `/`, dropping empty segments, as `PurePath` does when
a string is joined onto a path. -/
def splitSegments (s : String) : List String := splitSegsAux s.data []

/-- Does the joined string denote an absolute path? -/
def pyIsAbs (s : String) : Bool :=
  match s.data with
  | '/' :: _ => true
  | _ => false

/-- A joined string that starts with `/` replaces the whole path
(`pathlib` semantics); otherwise its segments are appended.  `..` (and
`.`) segments are kept literally, as `PurePath` keeps `..`. -/
def joinPath (p : List String) (s : String) : List String :=
  if pyIsAbs s then splitSegments s else p ++ splitSegments s

/-- OS-level resolution of `.` and `..` segments against an absolute path
(symlink-free, all intermediate directories assumed traversable): `..`
drops the preceding segment and is a no-op at the root. -/
def normAux : List String → List String → List String
  | acc, [] => acc.reverse
  | acc, "." :: rest => normAux acc rest
  | acc, ".." :: rest => normAux acc.tail rest
  | acc, seg :: rest => normAux (seg :: acc) rest

/-- Resolve a component list to its canonical absolute form. -/
def normalizePath (p : List String) : List String := normAux [] p

/-- `Path(__file__).parent / "models" / "trained_linear_probes"`, with the
app directory abstracted as `base`. -/
def probesRoot (base : List String) : List String :=
  joinPath (joinPath base "models") "trained_linear_probes"

/-- `probe_dir` of the handler: root joined with the request's model string
and `str(layer)`. -/
def probeDir (base : List String) (model : String) (layer : Int) :
    List String :=
  joinPath (joinPath (probesRoot base) model) (toString layer)

/-- `model_file = probe_dir / "model.pickle"`. -/
def modelFilePath (base : List String) (model : String) (layer : Int) :
    List String :=
  joinPath (probeDir base model layer) "model.pickle"

/-- The filesystem as `predict` sees it: which resolved paths hold a
loadable `model.pickle`, and with which artifact. -/
abbrev FileSystem := List String → Option ProbeModel

/-! ### The predict handler -/

/-- `err["loc"][-1]`: last element of the location tuple, or the escaping
`IndexError` when the tuple is empty. -/
def detailOfError (e : PydanticError) : Except String HttpDetail :=
  match e.loc.getLast? with
  | some f => .ok ⟨f, e.msg⟩
  | none => .error indexErrorMsg

/-- The list comprehension of the `except ValidationError` block: left to
right, the first raised `IndexError` escapes. -/
def buildDetails : List PydanticError → Except String (List HttpDetail)
  | [] => .ok []
  | e :: es =>
    match detailOfError e with
    | .error m => .error m
    | .ok d =>
      match buildDetails es with
      | .error m => .error m
      | .ok ds => .ok (d :: ds)

/-- The `except ValidationError` block: a 400 response with the details
list, unless building the list itself raises. -/
def validationErrorResponse (errs : List PydanticError) :
    Except String HttpResponse :=
  match buildDetails errs with
  | .ok ds => .ok ⟨400, .validationFailed ds⟩
  | .error e => .error e

/-- `delta = primary_activations - text_activations` followed by the
reshape to a single-row matrix (`delta.reshape(1, -1)`; the input arrays
are 1-D, so the reshape always fires). -/
def deltaMatrix (primary text : List ℚ) : List (List ℚ) :=
  [primary.zipWith (fun a b => a - b) text]

/-- Outcome of invoking the loaded artifact on the delta matrix. -/
inductive PredictOutcome
  | probability (p : ℚ)
  | unsupported
  | indexError

/-- The capability-probing invocation block: `predict_proba` first (column
1 of row 0 when the output has more than one column, else column 0),
otherwise `predict` (element 0), otherwise unsupported.  Out-of-bounds
indexing is the `IndexError` outcome (caught by the generic handler). -/
def invokeProbe (pm : ProbeModel) (delta : List (List ℚ)) : PredictOutcome :=
  match pm.predict_proba with
  | some f =>
    let out := f delta
    match out.head? with
    | none => .indexError
    | some row0 =>
      if 1 < (out.headD []).length then
        match row0[1]? with
        | some v => .probability v
        | none => .indexError
      else
        match row0[0]? with
        | some v => .probability v
        | none => .indexError
  | none =>
    match pm.predict with
    | some g =>
      match (g delta).head? with
      | some v => .probability v
      | none => .indexError
    | none => .unsupported

/-- The `/v1/predict` handler.  `Except.error m` means no HTTP response was
produced: an exception with message `m` escaped the handler to the host.
The generic `except Exception` 500 branch surfaces as an `.ok` response
with status 500. -/
def predict (base : List String) (fs : FileSystem) (body : Body) :
    Except String HttpResponse :=
  match model_validate_json body with
  | .error errs => validationErrorResponse errs
  | .ok req =>
    match fs (normalizePath (modelFilePath base req.model req.layer)) with
    | none => .ok ⟨404, .errorBody (notFoundMsg req.model req.layer)⟩
    | some pm =>
      match invokeProbe pm
          (deltaMatrix req.primary_activations req.text_activations) with
      | .unsupported =>
        .ok ⟨500, .errorBody "Probe model does not support prediction"⟩
      | .indexError =>
        .ok ⟨500, .errorBody ("Internal server error: " ++ indexErrorMsg)⟩
      | .probability p =>
        match responseErrors p with
        | [] => .ok ⟨200, .predictOk req.model req.probe_type req.layer p⟩
        | e :: es => validationErrorResponse (e :: es)

/-- The `/v1/probes` handler: discover and wrap in a 200 response. -/
def list_probes (root : Option (List ModelDir)) : HttpResponse :=
  ⟨200, .probeList (discover_probes root)⟩

/-- The on-disk layout a directory tree induces for `predict`'s lookups:
the artifact of layer entry `ld` of model directory `md` lives at
`<probes root>/<md.name>/<ld.name>/model.pickle`. -/
def treeFileSystem (base : List String) (dirs : List ModelDir) :
    FileSystem :=
  fun p =>
    dirs.findSome? (fun md =>
      if md.is_dir then
        md.entries.findSome? (fun ld =>
          if ld.is_dir then
            if p = probesRoot base ++ [md.name, ld.name, "model.pickle"]
            then ld.artifact else none
          else none)
      else none)

/-! ### Helper lemmas: decimal values of digit strings -/

lemma isDigitChar_bounds {c : Char} (h : isDigitChar c = true) :
    48 ≤ c.toNat ∧ c.toNat ≤ 57 := by
  simpa [isDigitChar] using h

lemma foldl_digit_lt :
    ∀ (as bs : List Char), as.length = bs.length →
      (∀ c ∈ as, isDigitChar c = true) →
      ∀ a₁ a₂ : Nat, a₁ < a₂ →
      List.foldl digitStep a₁ as < List.foldl digitStep a₂ bs
  | [], [], _, _, _, _, h => by simpa using h
  | [], _ :: _, h, _, _, _, _ => by simp at h
  | _ :: _, [], h, _, _, _, _ => by simp at h
  | a :: as, b :: bs, hlen, hdig, a₁, a₂, hlt => by
    simp only [List.foldl_cons]
    apply foldl_digit_lt as bs (by simpa using hlen)
      (fun c hc => hdig c (List.mem_cons_of_mem _ hc))
    have h9 := isDigitChar_bounds (hdig a (List.mem_cons_self a as))
    unfold digitStep digitVal
    omega

lemma foldl_digit_le :
    ∀ (as bs : List Char), as.length = bs.length →
      (∀ c ∈ as, isDigitChar c = true) →
      (∀ c ∈ bs, isDigitChar c = true) →
      charListLe as bs = true →
      ∀ acc : Nat, List.foldl digitStep acc as ≤ List.foldl digitStep acc bs
  | [], [], _, _, _, _, _ => le_refl _
  | [], _ :: _, h, _, _, _, _ => by simp at h
  | _ :: _, [], h, _, _, _, _ => by simp at h
  | a :: as, b :: bs, hlen, hda, hdb, hle, acc => by
    simp only [List.foldl_cons]
    by_cases h1 : a.toNat < b.toNat
    · apply le_of_lt
      apply foldl_digit_lt as bs (by simpa using hlen)
        (fun c hc => hda c (List.mem_cons_of_mem _ hc))
      have hA := isDigitChar_bounds (hda a (List.mem_cons_self a as))
      have hB := isDigitChar_bounds (hdb b (List.mem_cons_self b bs))
      unfold digitStep digitVal
      omega
    · by_cases h2 : b.toNat < a.toNat
      · simp [charListLe, h1, h2] at hle
      · have heq : a.toNat = b.toNat := by omega
        have hstep : digitStep acc a = digitStep acc b := by
          unfold digitStep digitVal
          rw [heq]
        rw [hstep]
        have hle' : charListLe as bs = true := by
          simpa [charListLe, h1, h2] using hle
        exact foldl_digit_le as bs (by simpa using hlen)
          (fun c hc => hda c (List.mem_cons_of_mem _ hc))
          (fun c hc => hdb c (List.mem_cons_of_mem _ hc)) hle' _

lemma pyIntOfDigits_le {s t : String} (hlen : s.data.length = t.data.length)
    (hs : ∀ c ∈ s.data, isDigitChar c = true)
    (ht : ∀ c ∈ t.data, isDigitChar c = true)
    (h : nameLe s t = true) : pyIntOfDigits s ≤ pyIntOfDigits t :=
  foldl_digit_le s.data t.data hlen hs ht h 0

/-! ### Helper lemmas: the lexicographic order is total and transitive -/

lemma charListLe_total :
    ∀ as bs : List Char, charListLe as bs = true ∨ charListLe bs as = true
  | [], _ => Or.inl rfl
  | _ :: _, [] => Or.inr rfl
  | a :: as, b :: bs => by
    by_cases h1 : a.toNat < b.toNat
    · left
      simp [charListLe, h1]
    · by_cases h2 : b.toNat < a.toNat
      · right
        simp [charListLe, h2]
      · rcases charListLe_total as bs with h | h
        · left
          simpa [charListLe, h1, h2] using h
        · right
          simpa [charListLe, h1, h2] using h

lemma charListLe_trans :
    ∀ as bs cs : List Char, charListLe as bs = true →
      charListLe bs cs = true → charListLe as cs = true
  | [], _, _, _, _ => rfl
  | _ :: _, [], _, h1, _ => by simp [charListLe] at h1
  | _ :: _, _ :: _, [], _, h2 => by simp [charListLe] at h2
  | a :: as, b :: bs, c :: cs, h1, h2 => by
    by_cases hab : a.toNat < b.toNat
    · by_cases hbc : b.toNat < c.toNat
      · have hac : a.toNat < c.toNat := by omega
        simp [charListLe, hac]
      · by_cases hcb : c.toNat < b.toNat
        · simp [charListLe, hbc, hcb] at h2
        · have hac : a.toNat < c.toNat := by omega
          simp [charListLe, hac]
    · by_cases hba : b.toNat < a.toNat
      · simp [charListLe, hab, hba] at h1
      · have hab' : a.toNat = b.toNat := by omega
        have h1' : charListLe as bs = true := by
          simpa [charListLe, hab, hba] using h1
        by_cases hbc : b.toNat < c.toNat
        · have hac : a.toNat < c.toNat := by omega
          simp [charListLe, hac]
        · by_cases hcb : c.toNat < b.toNat
          · simp [charListLe, hbc, hcb] at h2
          · have h2' : charListLe bs cs = true := by
              simpa [charListLe, hbc, hcb] using h2
            have hac : ¬ a.toNat < c.toNat := by omega
            have hca : ¬ c.toNat < a.toNat := by omega
            simpa [charListLe, hac, hca] using
              charListLe_trans as bs cs h1' h2'

instance : IsTotal LayerDir layerLe :=
  ⟨fun a b => charListLe_total a.name.data b.name.data⟩

instance : IsTrans LayerDir layerLe :=
  ⟨fun a b c => charListLe_trans a.name.data b.name.data c.name.data⟩

/-! ### Helper lemmas: catalog membership and handler unfolding -/

lemma mem_get_available_layers {entries : List LayerDir} {l : Int}
    (h : l ∈ get_available_layers entries) :
    ∃ d ∈ entries, qualifies d = true ∧ (pyIntOfDigits d.name : Int) = l := by
  unfold get_available_layers at h
  rcases List.mem_map.mp h with ⟨d, hd, hval⟩
  rcases List.mem_filter.mp hd with ⟨hsort, hq⟩
  exact ⟨d, (List.perm_insertionSort layerLe entries).mem_iff.mp hsort, hq,
    hval⟩

lemma requestErrors_eq_nil {f : RequestFields} (h1 : ¬ f.layer < 0)
    (h2 : f.primary_activations.length = 4096)
    (h3 : f.text_activations.length = 4096) : requestErrors f = [] := by
  simp [requestErrors, h1, h2, h3]

lemma model_validate_json_ok {f : RequestFields} (h1 : ¬ f.layer < 0)
    (h2 : f.primary_activations.length = 4096)
    (h3 : f.text_activations.length = 4096) :
    model_validate_json (.obj f) =
      .ok ⟨f.model, f.probe_type.getD "linear_probe", f.layer,
           f.primary_activations, f.text_activations⟩ := by
  simp only [model_validate_json]
  rw [requestErrors_eq_nil h1 h2 h3]

/-- On a schema-valid body, `predict` reduces to the resolve-load-invoke
pipeline. -/
lemma predict_valid_eq (base : List String) (fs : FileSystem)
    (f : RequestFields) (h1 : ¬ f.layer < 0)
    (h2 : f.primary_activations.length = 4096)
    (h3 : f.text_activations.length = 4096) :
    predict base fs (.obj f) =
      match fs (normalizePath (modelFilePath base f.model f.layer)) with
      | none => .ok ⟨404, .errorBody (notFoundMsg f.model f.layer)⟩
      | some pm =>
        match invokeProbe pm
            (deltaMatrix f.primary_activations f.text_activations) with
        | .unsupported =>
          .ok ⟨500, .errorBody "Probe model does not support prediction"⟩
        | .indexError =>
          .ok ⟨500, .errorBody ("Internal server error: " ++ indexErrorMsg)⟩
        | .probability p =>
          match responseErrors p with
          | [] => .ok ⟨200, .predictOk f.model (f.probe_type.getD
                    "linear_probe") f.layer p⟩
          | e :: es => validationErrorResponse (e :: es) := by
  unfold predict
  rw [model_validate_json_ok h1 h2 h3]

lemma notFoundMsg_data (m : String) (l : Int) :
    (notFoundMsg m l).data =
      ("Probe not found for model \x27").data ++ m.data
        ++ ("\x27 at layer ").data ++ (toString l).data := by
  simp [notFoundMsg, String.data_append]

lemma notFoundMsg_has_model (m : String) (l : Int) :
    ∃ u v, (notFoundMsg m l).data = u ++ m.data ++ v := by
  refine ⟨("Probe not found for model \x27").data,
    ("\x27 at layer ").data ++ (toString l).data, ?_⟩
  rw [notFoundMsg_data]
  simp [List.append_assoc]

lemma notFoundMsg_has_layer (m : String) (l : Int) :
    ∃ u v, (notFoundMsg m l).data = u ++ (toString l).data ++ v := by
  refine ⟨("Probe not found for model \x27").data ++ m.data
    ++ ("\x27 at layer ").data, [], ?_⟩
  rw [notFoundMsg_data]
  simp [List.append_assoc]

lemma qualifies_parts {d : LayerDir} (h : qualifies d = true) :
    d.is_dir = true ∧ pyIsDigit d.name = true ∧ d.has_config = true ∧
      d.artifact.isSome = true := by
  simpa [qualifies, and_assoc] using h

lemma pyIsDigit_all {s : String} (h : pyIsDigit s = true) :
    ∀ c ∈ s.data, isDigitChar c = true := by
  simp [pyIsDigit, List.all_eq_true] at h
  exact h.2

/-! ### Claim C1 -/

/-- A model directory holding qualifying layer directories named `2` and
`10`, listed here in numeric order to show the output order is due to the
sort, not the iteration order. -/
def c1Entries : List LayerDir :=
  [⟨"2", true, true, some ⟨none, none⟩⟩,
   ⟨"10", true, true, some ⟨none, none⟩⟩]

/-- C1, counterexample: with qualifying layer directories named `2` and
`10`, the resolver returns `[10, 2]` — `sorted()` compares the `Path`
values lexically, so the `layers` array is NOT ascending numerically and
differs from the `[2, 10]` the claim promises. -/
theorem get_available_layers_not_numeric :
    get_available_layers c1Entries = [10, 2] ∧
    get_available_layers c1Entries ≠ [2, 10] ∧
    ¬ List.Sorted (fun a b : Int => a ≤ b) (get_available_layers c1Entries)
    := by
  refine ⟨rfl, by decide, ?_⟩
  intro h
  have h' : List.Sorted (fun a b : Int => a ≤ b) ([10, 2] : List Int) := h
  have h10 : (10 : Int) ≤ 2 :=
    List.rel_of_sorted_cons h' 2 (List.mem_cons_self 2 [])
  omega

/-- C1, amended: the `layers` array follows the ascending lexicographic
order of the layer directory names; when all qualifying layer-directory
names have the same width, that order coincides with the numeric one and
the array is sorted ascending numerically. -/
theorem get_available_layers_sorted_of_equal_width (entries : List LayerDir)
    (n : Nat) (h : ∀ d ∈ entries, qualifies d = true → d.name.length = n) :
    List.Sorted (fun a b : Int => a ≤ b) (get_available_layers entries) := by
  unfold get_available_layers
  show List.Pairwise (fun a b : Int => a ≤ b)
    (List.map (fun d => (pyIntOfDigits d.name : Int))
      (List.filter qualifies (List.insertionSort layerLe entries)))
  rw [List.pairwise_map]
  have hfil : List.Pairwise layerLe
      ((List.insertionSort layerLe entries).filter qualifies) :=
    (List.sorted_insertionSort layerLe entries).sublist
      (List.filter_sublist _)
  refine hfil.imp_of_mem ?_
  intro d e hd he hle
  obtain ⟨hd_mem, hdq⟩ := List.mem_filter.mp hd
  obtain ⟨he_mem, heq'⟩ := List.mem_filter.mp he
  have hd_in : d ∈ entries :=
    (List.perm_insertionSort layerLe entries).mem_iff.mp hd_mem
  have he_in : e ∈ entries :=
    (List.perm_insertionSort layerLe entries).mem_iff.mp he_mem
  apply Int.ofNat_le.mpr
  apply pyIntOfDigits_le
  · show d.name.data.length = e.name.data.length
    have h1 : d.name.length = n := h d hd_in hdq
    have h2 : e.name.length = n := h e he_in heq'
    exact h1.trans h2.symm
  · exact pyIsDigit_all (qualifies_parts hdq).2.1
  · exact pyIsDigit_all (qualifies_parts heq').2.1
  · exact hle

/-- Qualifying layer directories of uniform two-character width. -/
def c1wEntries : List LayerDir :=
  [⟨"12", true, true, some ⟨none, none⟩⟩,
   ⟨"07", true, true, some ⟨none, none⟩⟩]

/-- C1, witness: on a listing whose qualifying names all have width 2 the
amended theorem applies and the layers come out numerically sorted. -/
theorem get_available_layers_sorted_of_equal_width_witness :
    (∀ d ∈ c1wEntries, qualifies d = true → d.name.length = 2) ∧
    List.Sorted (fun a b : Int => a ≤ b) (get_available_layers c1wEntries)
    :=
  ⟨by decide,
   get_available_layers_sorted_of_equal_width c1wEntries 2 (by decide)⟩

/-! ### Claim C7 -/

/-- C7: a missing probes root yields a 200 response with an empty catalog;
every catalog entry has a nonempty `layers` list and probe type
`linear_probe`, backed by an actual model directory each of whose listed
layers comes from a qualifying layer directory (a directory with a digit
name containing both `config.json` and `model.pickle`); and a root whose
model directories all have zero qualifying layers produces an empty
catalog. -/
theorem probes_catalog_invariants :
    list_probes none = ⟨200, .probeList []⟩ ∧
    (∀ (dirs : List ModelDir) (pi : ProbeInfo),
        pi ∈ discover_probes (some dirs) →
        pi.layers ≠ [] ∧ pi.probe_type = "linear_probe" ∧
        ∃ md ∈ dirs, md.is_dir = true ∧ md.name = pi.model ∧
          get_available_layers md.entries = pi.layers ∧
          ∀ l ∈ pi.layers, ∃ ld ∈ md.entries,
            ld.is_dir = true ∧ pyIsDigit ld.name = true ∧
            ld.has_config = true ∧ ld.artifact.isSome = true ∧
            (pyIntOfDigits ld.name : Int) = l) ∧
    (∀ dirs : List ModelDir,
        (∀ md ∈ dirs, get_available_layers md.entries = []) →
        discover_probes (some dirs) = []) := by
  refine ⟨rfl, ?_, ?_⟩
  · intro dirs pi hmem
    unfold discover_probes at hmem
    rcases List.mem_filterMap.mp hmem with ⟨md, hmd, heq⟩
    rcases List.mem_filter.mp hmd with ⟨hmd_in, hdir⟩
    by_cases hemp : (get_available_layers md.entries).isEmpty = true
    · simp [hemp] at heq
    · simp only [hemp, if_false, Option.some.injEq, Bool.false_eq_true,
        if_neg] at heq
      obtain ⟨e1, e2, e3⟩ := ProbeInfo.mk.injEq .. ▸ heq
      have hne : get_available_layers md.entries ≠ [] := by
        simpa [List.isEmpty_iff] using hemp
      refine ⟨e3 ▸ hne, e2.symm, md, hmd_in, hdir, e1, e3, ?_⟩
      intro l hl
      rw [← e3] at hl
      rcases mem_get_available_layers hl with ⟨ld, hld_in, hq, hval⟩
      rcases qualifies_parts hq with ⟨q1, q2, q3, q4⟩
      exact ⟨ld, hld_in, q1, q2, q3, q4, hval⟩
  · intro dirs h
    unfold discover_probes
    rw [List.filterMap_eq_nil_iff]
    intro md hmd
    rcases List.mem_filter.mp hmd with ⟨hin, _⟩
    simp [h md hin]

/-- A probes root with one model directory holding one qualifying layer. -/
def c7Dirs : List ModelDir :=
  [⟨"llama3_8b", true, [⟨"5", true, true, some ⟨none, none⟩⟩]⟩]

/-- The catalog entry the root above produces. -/
def c7Probe : ProbeInfo := ⟨"llama3_8b", "linear_probe", [5]⟩

/-- C7, witness: the invariants instantiated on a concrete root. -/
theorem probes_catalog_invariants_witness :
    c7Probe ∈ discover_probes (some c7Dirs) ∧ c7Probe.layers ≠ [] :=
  ⟨by decide, (probes_catalog_invariants.2.1 c7Dirs c7Probe (by decide)).1⟩

/-! ### Claim C2 -/

/-- An artifact whose probability output is `[[0, 1]]`. -/
def c2Probe : ProbeModel := ⟨some (fun _ => [[0, 1]]), none⟩

/-- One model directory whose only layer directory has `model.pickle` but
NO `config.json`, so the catalog omits it. -/
def c2Dirs : List ModelDir := [⟨"m", true, [⟨"0", true, false, some c2Probe⟩]⟩]

/-- Probes root location for the C2 scenario. -/
def c2Base : List String := ["home", "site", "app"]

/-- A schema-valid request for the uncataloged pair (`m`, 0). -/
def c2Fields : RequestFields :=
  ⟨"m", none, 0, List.replicate 4096 0, List.replicate 4096 0⟩

/-- C2, counterexample: the pair (`m`, 0) is absent from the catalog (its
layer directory lacks the configuration file), yet `predict` answers 200,
not 404 — the handler checks only `model.pickle`. -/
theorem predict_200_without_config :
    discover_probes (some c2Dirs) = [] ∧
    predict c2Base (treeFileSystem c2Base c2Dirs) (.obj c2Fields) =
      .ok ⟨200, .predictOk "m" "linear_probe" 0 1⟩ := by
  refine ⟨rfl, ?_⟩
  rw [predict_valid_eq c2Base _ c2Fields (by decide)
    (List.length_replicate 4096 0) (List.length_replicate 4096 0)]
  rw [show treeFileSystem c2Base c2Dirs (normalizePath
      (modelFilePath c2Base c2Fields.model c2Fields.layer))
      = some c2Probe from rfl]
  rfl

/-- C2 (amended): for every (model, layer) pair whose model-artifact file
is absent at the resolved path — rather than every pair absent from the
catalog — `predict` returns 404 with an error message referencing both the
model and the layer. -/
theorem predict_404_of_artifact_absent (base : List String) (fs : FileSystem)
    (f : RequestFields) (h1 : ¬ f.layer < 0)
    (h2 : f.primary_activations.length = 4096)
    (h3 : f.text_activations.length = 4096)
    (h4 : fs (normalizePath (modelFilePath base f.model f.layer)) = none) :
    predict base fs (.obj f) =
      .ok ⟨404, .errorBody (notFoundMsg f.model f.layer)⟩ ∧
    (∃ u v, (notFoundMsg f.model f.layer).data = u ++ f.model.data ++ v) ∧
    (∃ u v, (notFoundMsg f.model f.layer).data
        = u ++ (toString f.layer).data ++ v) := by
  refine ⟨?_, notFoundMsg_has_model f.model f.layer,
    notFoundMsg_has_layer f.model f.layer⟩
  rw [predict_valid_eq base fs f h1 h2 h3, h4]

/-- A schema-valid request for a model that does not exist anywhere. -/
def c2wFields : RequestFields :=
  ⟨"nope", none, 0, List.replicate 4096 0, List.replicate 4096 0⟩

/-- C2, witness: on an empty filesystem the amended theorem yields the
404 response for (`nope`, 0). -/
theorem predict_404_of_artifact_absent_witness :
    (¬ c2wFields.layer < 0) ∧
    predict ["wwwroot"] (fun _ => none) (.obj c2wFields) =
      .ok ⟨404, .errorBody (notFoundMsg "nope" 0)⟩ :=
  ⟨by decide,
   (predict_404_of_artifact_absent ["wwwroot"] (fun _ => none) c2wFields
     (by decide) (List.length_replicate 4096 0)
     (List.length_replicate 4096 0) rfl).1⟩

/-! ### Claim C6 -/

/-- C6: on a validated request the handler resolves
`<probes_root>/<model>/<layer>/model.pickle` and checks its existence
first; when the artifact is absent it answers 404 with a message carrying
both the model and the layer, and the answer is the same whatever the rest
of the filesystem holds — nothing is deserialised or invoked. -/
theorem predict_checks_artifact_before_load (base : List String)
    (f : RequestFields) (fs fs' : FileSystem) (h1 : ¬ f.layer < 0)
    (h2 : f.primary_activations.length = 4096)
    (h3 : f.text_activations.length = 4096)
    (h4 : fs (normalizePath (modelFilePath base f.model f.layer)) = none)
    (h4' : fs' (normalizePath (modelFilePath base f.model f.layer)) = none) :
    predict base fs (.obj f) = predict base fs' (.obj f) ∧
    predict base fs (.obj f) =
      .ok ⟨404, .errorBody (notFoundMsg f.model f.layer)⟩ ∧
    (∃ u v, (notFoundMsg f.model f.layer).data = u ++ f.model.data ++ v) ∧
    (∃ u v, (notFoundMsg f.model f.layer).data
        = u ++ (toString f.layer).data ++ v) := by
  have e1 : predict base fs (.obj f) =
      .ok ⟨404, .errorBody (notFoundMsg f.model f.layer)⟩ := by
    rw [predict_valid_eq base fs f h1 h2 h3, h4]
  have e2 : predict base fs' (.obj f) =
      .ok ⟨404, .errorBody (notFoundMsg f.model f.layer)⟩ := by
    rw [predict_valid_eq base fs' f h1 h2 h3, h4']
  exact ⟨e1.trans e2.symm, e1, notFoundMsg_has_model f.model f.layer,
    notFoundMsg_has_layer f.model f.layer⟩

/-- A schema-valid request for the missing pair (`ghost`, 7). -/
def c6Fields : RequestFields :=
  ⟨"ghost", none, 7, List.replicate 4096 0, List.replicate 4096 0⟩

/-- A filesystem holding an artifact somewhere unrelated to the request. -/
def c6Fs' : FileSystem :=
  fun p => if p = ["elsewhere", "model.pickle"]
    then some ⟨none, some (fun _ => [0])⟩ else none

/-- C6, witness: the 404 for (`ghost`, 7) does not depend on what the rest
of the filesystem holds. -/
theorem predict_checks_artifact_before_load_witness :
    (¬ c6Fields.layer < 0) ∧
    predict ["app6"] (fun _ => none) (.obj c6Fields) =
      predict ["app6"] c6Fs' (.obj c6Fields) :=
  ⟨by decide,
   (predict_checks_artifact_before_load ["app6"] c6Fields (fun _ => none)
     c6Fs' (by decide) (List.length_replicate 4096 0)
     (List.length_replicate 4096 0) rfl rfl).1⟩

/-! ### Claim C3 -/

/-- C3 (amended): a body that is not parseable as JSON raises a
`ValidationError` that IS caught by the schema-validation (400) path, but
building the per-field details list indexes the error's empty location
tuple and raises `IndexError` inside that handler, so `predict` produces
no HTTP response itself — the exception escapes to the hosting layer
(which surfaces it as a host-generated 500); the generic catch-all branch
is never reached. -/
theorem predict_malformed_escapes (base : List String) (fs : FileSystem) :
    predict base fs Body.malformed = .error indexErrorMsg := rfl

/-- An arbitrary filesystem for the C3 scenario. -/
def c3Fs : FileSystem := fun _ => none

/-- C3, counterexample: on a non-JSON body the handler returns no response
at all (the escaping `IndexError`), so in particular the response is not a
500 built by the generic catch-all fallback. -/
theorem predict_malformed_no_response :
    predict ["app3"] c3Fs Body.malformed = .error indexErrorMsg ∧
    (predict ["app3"] c3Fs Body.malformed).isOk = false :=
  ⟨rfl, rfl⟩

/-! ### Claim C5 -/

lemma requestErrors_ne_nil {f : RequestFields}
    (h : f.primary_activations.length ≠ 4096 ∨
      f.text_activations.length ≠ 4096 ∨ f.layer < 0) :
    requestErrors f ≠ [] := by
  intro he
  rcases h with h | h | h <;> simp [requestErrors, h] at he

/-- C5: whenever an activation array has the wrong length or the layer is
negative, `predict` answers 400 with a details list holding one
`(field, message)` pair per violated constraint — every violated field
listed, in field declaration order, each entry naming the offending
field. -/
theorem predict_400_details_per_violation (base : List String)
    (fs : FileSystem) (f : RequestFields)
    (h : f.primary_activations.length ≠ 4096 ∨
      f.text_activations.length ≠ 4096 ∨ f.layer < 0) :
    ∃ ds : List HttpDetail,
      predict base fs (.obj f) = .ok ⟨400, .validationFailed ds⟩ ∧
      ds = (if f.layer < 0 then [⟨"layer", geZeroMsg⟩] else [])
        ++ (if f.primary_activations.length ≠ 4096
            then [⟨"primary_activations", lenMsg⟩] else [])
        ++ (if f.text_activations.length ≠ 4096
            then [⟨"text_activations", lenMsg⟩] else []) ∧
      (f.layer < 0 → HttpDetail.mk "layer" geZeroMsg ∈ ds) ∧
      (f.primary_activations.length ≠ 4096 →
        HttpDetail.mk "primary_activations" lenMsg ∈ ds) ∧
      (f.text_activations.length ≠ 4096 →
        HttpDetail.mk "text_activations" lenMsg ∈ ds) := by
  refine ⟨_, ?_, rfl, ?_, ?_, ?_⟩
  · have hne := requestErrors_ne_nil h
    obtain ⟨e, es, hre⟩ := List.exists_cons_of_ne_nil hne
    have hv : model_validate_json (.obj f) = .error (e :: es) := by
      simp only [model_validate_json]
      rw [hre]
    have hbd : buildDetails (requestErrors f) =
        .ok ((if f.layer < 0 then [HttpDetail.mk "layer" geZeroMsg] else [])
          ++ (if f.primary_activations.length ≠ 4096
              then [HttpDetail.mk "primary_activations" lenMsg] else [])
          ++ (if f.text_activations.length ≠ 4096
              then [HttpDetail.mk "text_activations" lenMsg] else [])) := by
      unfold requestErrors
      split_ifs <;> rfl
    unfold predict
    rw [hv]
    show validationErrorResponse (e :: es) = _
    unfold validationErrorResponse
    rw [← hre, hbd]
  · intro hl
    simp [hl]
  · intro hp
    simp [hp]
  · intro ht
    simp [ht]

/-- A request violating both the layer bound and the primary-activation
length. -/
def c5Fields : RequestFields :=
  ⟨"m5", none, -1, List.replicate 3 0, List.replicate 4096 0⟩

/-- C5, witness: a request with `layer = -1` and a length-3 primary
array gets a 400 whose details list both violated fields. -/
theorem predict_400_details_per_violation_witness :
    c5Fields.layer < 0 ∧
    ∃ ds, predict ["w5"] (fun _ => none) (.obj c5Fields) =
        .ok ⟨400, .validationFailed ds⟩ ∧
      HttpDetail.mk "layer" geZeroMsg ∈ ds ∧
      HttpDetail.mk "primary_activations" lenMsg ∈ ds := by
  obtain ⟨ds, hp, _, hl, hpa, _⟩ :=
    predict_400_details_per_violation ["w5"] (fun _ => none) c5Fields
      (Or.inr (Or.inr (by decide)))
  exact ⟨by decide, ds, hp, hl (by decide), hpa (by decide)⟩

/-! ### Claim C4 -/

/-- On a valid request whose artifact loads, `predict` reduces to the
invocation-and-range-check tail of the pipeline. -/
lemma predict_found_eq (base : List String) (fs : FileSystem)
    (f : RequestFields) (pm : ProbeModel) (h1 : ¬ f.layer < 0)
    (h2 : f.primary_activations.length = 4096)
    (h3 : f.text_activations.length = 4096)
    (h4 : fs (normalizePath (modelFilePath base f.model f.layer))
      = some pm) :
    predict base fs (.obj f) =
      match invokeProbe pm
          (deltaMatrix f.primary_activations f.text_activations) with
      | .unsupported =>
        .ok ⟨500, .errorBody "Probe model does not support prediction"⟩
      | .indexError =>
        .ok ⟨500, .errorBody ("Internal server error: " ++ indexErrorMsg)⟩
      | .probability p =>
        match responseErrors p with
        | [] => .ok ⟨200, .predictOk f.model
                  (f.probe_type.getD "linear_probe") f.layer p⟩
        | e :: es => validationErrorResponse (e :: es) := by
  rw [predict_valid_eq base fs f h1 h2 h3, h4]

/-- On a valid request whose artifact yields probability `p`, `predict`
reduces to the response-model range check on `p`. -/
lemma predict_prob_eq (base : List String) (fs : FileSystem)
    (f : RequestFields) (pm : ProbeModel) (p : ℚ) (h1 : ¬ f.layer < 0)
    (h2 : f.primary_activations.length = 4096)
    (h3 : f.text_activations.length = 4096)
    (h4 : fs (normalizePath (modelFilePath base f.model f.layer))
      = some pm)
    (ho : invokeProbe pm
        (deltaMatrix f.primary_activations f.text_activations)
      = .probability p) :
    predict base fs (.obj f) =
      match responseErrors p with
      | [] => .ok ⟨200, .predictOk f.model
                (f.probe_type.getD "linear_probe") f.layer p⟩
      | e :: es => validationErrorResponse (e :: es) := by
  rw [predict_found_eq base fs f pm h1 h2 h3 h4, ho]

/-- An in-range probability passes the `PredictResponse` constraints. -/
lemma responseErrors_eq_nil {p : ℚ} (hge : 0 ≤ p) (hle : p ≤ 1) :
    responseErrors p = [] := by
  unfold responseErrors
  rw [if_neg (not_lt.mpr hge), if_neg (not_lt.mpr hle)]
  rfl

/-- On a valid request whose artifact yields an in-range probability `p`,
`predict` answers 200 echoing the request and carrying `p`. -/
lemma predict_with_artifact (base : List String) (fs : FileSystem)
    (f : RequestFields) (pm : ProbeModel) (p : ℚ) (h1 : ¬ f.layer < 0)
    (h2 : f.primary_activations.length = 4096)
    (h3 : f.text_activations.length = 4096)
    (h4 : fs (normalizePath (modelFilePath base f.model f.layer))
      = some pm)
    (ho : invokeProbe pm
        (deltaMatrix f.primary_activations f.text_activations)
      = .probability p)
    (hge : 0 ≤ p) (hle : p ≤ 1) :
    predict base fs (.obj f) = .ok ⟨200, .predictOk f.model
      (f.probe_type.getD "linear_probe") f.layer p⟩ := by
  rw [predict_prob_eq base fs f pm p h1 h2 h3 h4 ho,
    responseErrors_eq_nil hge hle]

/-- C4: once the artifact of a validated request has loaded, the handler
dispatches on its capabilities: with a `predict_proba` capability the
answer carries cell `[0][1]` of its output when the output has more than
one column and cell `[0][0]` otherwise; with only a plain `predict`
capability it carries element 0 of that output; with neither capability
the answer is a 500 naming an unsupported probe.  (The 200 cases assume
the selected value passes the response model's `[0, 1]` range check;
out-of-range values are claim C9.) -/
theorem predict_capability_dispatch (base : List String) (fs : FileSystem)
    (f : RequestFields) (pm : ProbeModel) (h1 : ¬ f.layer < 0)
    (h2 : f.primary_activations.length = 4096)
    (h3 : f.text_activations.length = 4096)
    (h4 : fs (normalizePath (modelFilePath base f.model f.layer))
      = some pm) :
    (∀ fpr row rest, pm.predict_proba = some fpr →
      fpr (deltaMatrix f.primary_activations f.text_activations)
        = row :: rest →
      (∀ p, 1 < row.length → row[1]? = some p → 0 ≤ p → p ≤ 1 →
        predict base fs (.obj f) = .ok ⟨200, .predictOk f.model
          (f.probe_type.getD "linear_probe") f.layer p⟩) ∧
      (∀ p, ¬ 1 < row.length → row[0]? = some p → 0 ≤ p → p ≤ 1 →
        predict base fs (.obj f) = .ok ⟨200, .predictOk f.model
          (f.probe_type.getD "linear_probe") f.layer p⟩)) ∧
    (∀ g y ys, pm.predict_proba = none → pm.predict = some g →
      g (deltaMatrix f.primary_activations f.text_activations) = y :: ys →
      0 ≤ y → y ≤ 1 →
      predict base fs (.obj f) = .ok ⟨200, .predictOk f.model
        (f.probe_type.getD "linear_probe") f.layer y⟩) ∧
    (pm.predict_proba = none → pm.predict = none →
      predict base fs (.obj f) =
        .ok ⟨500, .errorBody "Probe model does not support prediction"⟩)
    := by
  refine ⟨?_, ?_, ?_⟩
  · intro fpr row rest hf hrow
    constructor
    · intro p hcols hp hge hle
      refine predict_with_artifact base fs f pm p h1 h2 h3 h4 ?_ hge hle
      simp only [invokeProbe, hf]
      rw [hrow]
      simp only [List.head?_cons, List.headD_cons]
      rw [if_pos hcols, hp]
    · intro p hcols hp hge hle
      refine predict_with_artifact base fs f pm p h1 h2 h3 h4 ?_ hge hle
      simp only [invokeProbe, hf]
      rw [hrow]
      simp only [List.head?_cons, List.headD_cons]
      rw [if_neg hcols, hp]
  · intro g y ys hpp hg hy hge hle
    refine predict_with_artifact base fs f pm y h1 h2 h3 h4 ?_ hge hle
    simp only [invokeProbe, hpp, hg]
    rw [hy]
    simp only [List.head?_cons]
  · intro hpp hg
    have ho : invokeProbe pm
        (deltaMatrix f.primary_activations f.text_activations)
        = .unsupported := by
      simp only [invokeProbe, hpp, hg]
    rw [predict_found_eq base fs f pm h1 h2 h3 h4, ho]

/-- A valid request for the two-class probability artifact below. -/
def c4Fields : RequestFields :=
  ⟨"m4", none, 1, List.replicate 4096 0, List.replicate 4096 0⟩

/-- A two-class probability artifact with output `[[0, 1]]`. -/
def c4Probe : ProbeModel := ⟨some (fun _ => [[0, 1]]), none⟩

/-- A filesystem holding that artifact everywhere. -/
def c4Fs : FileSystem := fun _ => some c4Probe

/-- C4, witness: the two-column `predict_proba` branch returns cell
`[0][1]` of the artifact's output. -/
theorem predict_capability_dispatch_witness :
    c4Fs (normalizePath (modelFilePath ["a4"] c4Fields.model
      c4Fields.layer)) = some c4Probe ∧
    predict ["a4"] c4Fs (.obj c4Fields) =
      .ok ⟨200, .predictOk "m4" "linear_probe" 1 1⟩ := by
  have h := predict_capability_dispatch ["a4"] c4Fs c4Fields c4Probe
    (by decide) (List.length_replicate 4096 0)
    (List.length_replicate 4096 0) rfl
  exact ⟨rfl, ((h.1 (fun _ => [[0, 1]]) [0, 1] [] rfl rfl).1 1 (by decide)
    rfl (by norm_num) (by norm_num))⟩

/-! ### Claim C9 -/

/-- C9 (implicit): when the loaded artifact's plain `predict` capability
yields a scalar outside `[0, 1]`, constructing the response model raises
the same `ValidationError` class the request path uses, so the handler
answers 400 with the `Validation failed` body naming
`predicted_probability` — a client-error status for a server-side
artifact problem, not 200 or 500. -/
theorem predict_out_of_range_probability_400 (base : List String)
    (fs : FileSystem) (f : RequestFields) (pm : ProbeModel)
    (g : List (List ℚ) → List ℚ) (y : ℚ) (ys : List ℚ)
    (h1 : ¬ f.layer < 0) (h2 : f.primary_activations.length = 4096)
    (h3 : f.text_activations.length = 4096)
    (h4 : fs (normalizePath (modelFilePath base f.model f.layer))
      = some pm)
    (hpp : pm.predict_proba = none) (hg : pm.predict = some g)
    (hy : g (deltaMatrix f.primary_activations f.text_activations)
      = y :: ys)
    (hout : y < 0 ∨ 1 < y) :
    predict base fs (.obj f) = .ok ⟨400, .validationFailed
      [⟨"predicted_probability",
        if y < 0 then geZeroMsg else leOneMsg⟩]⟩ := by
  have ho : invokeProbe pm
      (deltaMatrix f.primary_activations f.text_activations)
      = .probability y := by
    simp only [invokeProbe, hpp, hg]
    rw [hy]
    simp only [List.head?_cons]
  rcases hout with h | h
  · have hre : responseErrors y = [⟨["predicted_probability"], geZeroMsg⟩]
        := by
      unfold responseErrors
      rw [if_pos h, if_neg (show ¬ 1 < y by linarith)]
      rfl
    rw [if_pos h, predict_prob_eq base fs f pm y h1 h2 h3 h4 ho, hre]
    rfl
  · have hre : responseErrors y = [⟨["predicted_probability"], leOneMsg⟩]
        := by
      unfold responseErrors
      rw [if_neg (show ¬ y < 0 by linarith), if_pos h]
      rfl
    rw [if_neg (show ¬ y < 0 by linarith),
      predict_prob_eq base fs f pm y h1 h2 h3 h4 ho, hre]
    rfl

/-- A valid request for the label-emitting artifact below. -/
def c9Fields : RequestFields :=
  ⟨"m9", none, 2, List.replicate 4096 0, List.replicate 4096 0⟩

/-- An artifact with only plain `predict`, emitting the raw label 2. -/
def c9Probe : ProbeModel := ⟨none, some (fun _ => [2])⟩

/-- A filesystem holding that artifact everywhere. -/
def c9Fs : FileSystem := fun _ => some c9Probe

/-- C9, witness: a raw label 2 from plain `predict` turns into a 400 with
the upper-bound message on `predicted_probability`. -/
theorem predict_out_of_range_probability_400_witness :
    ((2 : ℚ) < 0 ∨ 1 < (2 : ℚ)) ∧
    predict ["a9"] c9Fs (.obj c9Fields) = .ok ⟨400, .validationFailed
      [⟨"predicted_probability", leOneMsg⟩]⟩ := by
  have h := predict_out_of_range_probability_400 ["a9"] c9Fs c9Fields
    c9Probe (fun _ => [2]) 2 [] (by decide) (List.length_replicate 4096 0)
    (List.length_replicate 4096 0) rfl rfl rfl rfl
    (Or.inr (by norm_num))
  rw [if_neg (show ¬ (2 : ℚ) < 0 by norm_num)] at h
  exact ⟨Or.inr (by norm_num), h⟩

/-! ### Claim C8 -/

/-- C8: the embedded pipeline is a pure function of the repository state
and the request body — no randomness, retries, or hidden state — so two
invocations on identical inputs produce identical outcomes,
`predicted_probability` included. -/
theorem predict_deterministic (base : List String) (fs : FileSystem)
    (b : Body) (r1 r2 : Except String HttpResponse)
    (h1 : predict base fs b = r1) (h2 : predict base fs b = r2) :
    r1 = r2 :=
  h1.symm.trans h2

/-- A request body reused for the two determinism runs. -/
def c8Fields : RequestFields := ⟨"m8", none, 0, [], []⟩

/-- C8, witness: two runs on the same concrete input agree. -/
theorem predict_deterministic_witness :
    predict ["a8"] (fun _ => none) (.obj c8Fields) =
      predict ["a8"] (fun _ => none) (.obj c8Fields) :=
  predict_deterministic ["a8"] (fun _ => none) (.obj c8Fields) _ _ rfl rfl

/-! ### Claim C10 -/

/-- Deployment directory of the app for the traversal scenario. -/
def c10Base : List String := ["home", "site", "wwwroot"]

/-- A model string carrying `..` segments. -/
def c10Model : String := "../../../etc/evil"

/-- The artifact planted OUTSIDE the probe repository. -/
def c10Probe : ProbeModel := ⟨some (fun _ => [[0, 1]]), none⟩

/-- Where the unsanitised join-and-resolve actually lands. -/
def c10Path : List String := normalizePath (modelFilePath c10Base c10Model 0)

/-- A filesystem whose only `model.pickle` is at that escaped path. -/
def c10Fs : FileSystem := fun p => if p = c10Path then some c10Probe else none

/-- A schema-valid request using the traversal model string. -/
def c10Fields : RequestFields :=
  ⟨c10Model, none, 0, List.replicate 4096 0, List.replicate 4096 0⟩

/-- C10 (implicit): the model field is joined into the artifact path with
no sanitisation, so a model string with `..` segments resolves outside the
probe repository root, and `predict` loads and executes the artifact found
there, answering 200 from it. -/
theorem predict_path_traversal :
    c10Path.take (probesRoot c10Base).length ≠ probesRoot c10Base ∧
    predict c10Base c10Fs (.obj c10Fields) =
      .ok ⟨200, .predictOk c10Model "linear_probe" 0 1⟩ := by
  refine ⟨by decide, ?_⟩
  rw [predict_valid_eq c10Base _ c10Fields (by decide)
    (List.length_replicate 4096 0) (List.length_replicate 4096 0)]
  rw [show c10Fs (normalizePath (modelFilePath c10Base c10Fields.model
      c10Fields.layer)) = some c10Probe from rfl]
  rfl

end TaskTracker
